import Mathlib

/-!
Shallow embedding of the upstocks-mcp protocol core:

* `src/mcp/core.ts` — the JSON-RPC dispatcher (`McpCore.processRequest`),
  session registry (`validateSession`, `updateSessionActivity`,
  `cleanupSessions`, `handleSessionStart`, `handleSessionEnd`,
  `handleClientInitialize`);
* `src/server.ts` — the stdio transport line handler
  (`McpServer.setupStdioTransport`);
* `src/mcp/tools.ts` — the tool layer (`McpTools.executeTool` and the
  individual tools);
* `src/mcp/resources.ts` — the resource layer (`McpResources.getResource`);
* `src/upstox/auth.ts` — the auth state machine (`UpstoxAuthManager`).

Modelling conventions: JavaScript `Date` values are integer milliseconds
(`Int` for the session clock, `Nat` for the auth clock;
`setHours(3, 30, 0, 0)` becomes truncation to the local day start plus the
03:30 offset).  An absent (`undefined`) object key is `Option.none`.  A
JavaScript `Map` is an association list keyed by the `id` field.  A thrown
exception is the `Except.error` case carrying the error message; `await` of
an external HTTP call is a parameter holding that call's outcome.  Fresh
UUIDs and the current time are explicit parameters of the dispatcher.
-/

namespace UpstoxMcp

/-- A JSON-RPC correlation id: a string, a number, or the JSON `null`
(`null` can only appear in responses; the transports use numeric `0` as the
sentinel when a request could not be parsed). -/
inductive RpcId where
  | str (s : String)
  | num (n : Int)
  | null
deriving DecidableEq, Repr

/-- A JSON-like value, the payload type for handler results. -/
inductive JsonValue where
  | null
  | str (s : String)
  | num (n : Int)
  | bool (b : Bool)
  | obj (fields : List (String × JsonValue))
  | arr (elems : List JsonValue)

/-- The params object of a request, restricted to the keys that the
dispatcher and the registered handlers actually read.  A `none` field is an
absent (`undefined`) key. -/
structure RpcParams where
  session_id : Option String := none
  tool_id : Option String := none
  order_id : Option String := none
  instrument_token : Option String := none
  transaction_type : Option String := none
  quantity : Option Int := none
  order_type : Option String := none
  price : Option Int := none
  trigger_price : Option Int := none
  product : Option String := none
  validity : Option String := none
  disclosed_quantity : Option Int := none
  is_amo : Option Bool := none
  resource_id : Option String := none
  instruments : Option (List String) := none
  exchange : Option String := none
  protocolVersion : Option String := none
deriving DecidableEq, Repr

/-- `JsonRpcRequest` from `src/mcp/types.ts`. -/
structure JsonRpcRequest where
  jsonrpc : String
  id : RpcId
  method : String
  params : Option RpcParams := none

/-- The `error` member of a response envelope. -/
structure RpcError where
  code : Int
  message : String
  data : Option JsonValue := none

/-- `JsonRpcResponse` from `src/mcp/types.ts`. -/
structure JsonRpcResponse where
  jsonrpc : String
  id : RpcId
  result : Option JsonValue := none
  error : Option RpcError := none

/-- `McpSession` from `src/mcp/types.ts`; `metadata` keeps the params object
stored at session creation. -/
structure McpSession where
  id : String
  createdAt : Int
  lastAccessedAt : Int
  metadata : Option RpcParams := none

/-- The module-level `sessions` map of `src/mcp/core.ts`, as an association
list keyed by `McpSession.id`. -/
abbrev SessionMap := List McpSession

/-- `sessions.get(sessionId)`. -/
def sessionsGet (m : SessionMap) (sid : String) : Option McpSession :=
  m.find? (fun s => s.id == sid)

/-- `sessions.has(sessionId)`. -/
def sessionsHas (m : SessionMap) (sid : String) : Bool :=
  m.any (fun s => s.id == sid)

/-- `sessions.set(sessionId, session)`: replace an existing entry with the
same key, otherwise append. -/
def sessionsSet (m : SessionMap) (s : McpSession) : SessionMap :=
  if sessionsHas m s.id then m.map (fun t => if t.id == s.id then s else t)
  else m ++ [s]

/-- `sessions.delete(sessionId)`. -/
def sessionsDelete (m : SessionMap) (sid : String) : SessionMap :=
  m.filter (fun s => s.id != sid)

/-- `SESSION_CLEANUP_INTERVAL = 30 * 60 * 1000` (30 minutes, ms). -/
def SESSION_CLEANUP_INTERVAL : Int := 30 * 60 * 1000

/-- `SESSION_EXPIRY_TIME = 60 * 60 * 1000` (1 hour of inactivity, ms). -/
def SESSION_EXPIRY_TIME : Int := 60 * 60 * 1000

/-- `McpCore.validateSession`: false if the session is absent, otherwise
true exactly when the elapsed idle time is strictly below the expiry
threshold.  It reads the map and returns a Bool; it never writes. -/
def validateSession (m : SessionMap) (sid : String) (now : Int) : Bool :=
  match sessionsGet m sid with
  | none => false
  | some s => decide (now - s.lastAccessedAt < SESSION_EXPIRY_TIME)

/-- `McpCore.updateSessionActivity`: set `lastAccessedAt = now` on the named
session; no-op when absent. -/
def updateSessionActivity (m : SessionMap) (sid : String) (now : Int) : SessionMap :=
  m.map (fun s => if s.id == sid then { s with lastAccessedAt := now } else s)

/-- `McpCore.cleanupSessions`: delete every session whose elapsed idle time
is at least `SESSION_EXPIRY_TIME`. -/
def cleanupSessions (m : SessionMap) (now : Int) : SessionMap :=
  m.filter (fun s => !decide (SESSION_EXPIRY_TIME ≤ now - s.lastAccessedAt))

/-- The outcome functions of the Upstox REST client (`src/upstox/api.ts`),
an external collaborator: each field is the settled outcome of the
corresponding network call (`Except.error` models a rejected promise).
Resource getters carry their `JSON.stringify`-ed payload as a `String`. -/
structure Broker where
  placeOrder : RpcParams → Except String JsonValue
  cancelOrder : String → Except String JsonValue
  getOrder : String → Except String JsonValue
  getMarketData : List String → Except String String
  getPositions : Except String String
  getHoldings : Except String String
  getOrders : Except String String
  getProfile : Except String String
  getInstruments : String → Except String String

/-- The ambient inputs of one dispatch: the current time, the next fresh
UUID, and the broker call outcomes. -/
structure DispatchEnv where
  now : Int
  freshId : String
  broker : Broker

/-- A registered method handler: params and the session map in, either a
result value and the updated session map, or a thrown error message. -/
abbrev Handler := DispatchEnv → RpcParams → SessionMap → Except String (JsonValue × SessionMap)

/-- The dispatcher's method registry (`McpCore.methodHandlers`). -/
abbrev HandlerMap := String → Option Handler

/-- `-32600`, the invalid-envelope code. -/
def INVALID_REQUEST_CODE : Int := -32600

/-- `-32601`, the method-not-found code. -/
def METHOD_NOT_FOUND_CODE : Int := -32601

/-- `-32602`, the code used when `session_id` is missing. -/
def MISSING_SESSION_CODE : Int := -32602

/-- `-32000`, the code used both for an invalid or expired session and for
the catch-all internal error. -/
def SERVER_ERROR_CODE : Int := -32000

/-- `-32700`, the parse-error code used by the transports. -/
def PARSE_ERROR_CODE : Int := -32700

/-- `McpCore.createErrorResponse`. -/
def createErrorResponse (id : RpcId) (code : Int) (message : String) : JsonRpcResponse :=
  { jsonrpc := "2.0", id := id, result := none,
    error := some { code := code, message := message, data := none } }

/-- `request.params?.session_id` followed by the JavaScript falsiness test
`!sessionId`: absent params, an absent key, and the empty string all count
as missing. -/
def requestSessionId (params : Option RpcParams) : Option String :=
  match params with
  | none => none
  | some p =>
    match p.session_id with
    | none => none
    | some s => if s = "" then none else some s

/-- Wrap a handler outcome: a returned value becomes the `result` member, a
thrown error is caught and becomes the `-32000` internal-error response
(the session map mutations made before the handler ran persist). -/
def wrapHandlerOutcome (id : RpcId) (sessions : SessionMap)
    (outcome : Except String (JsonValue × SessionMap)) : JsonRpcResponse × SessionMap :=
  match outcome with
  | .ok (v, sessions') =>
    ({ jsonrpc := "2.0", id := id, result := some v, error := none }, sessions')
  | .error msg =>
    (createErrorResponse id SERVER_ERROR_CODE ("Internal error: " ++ msg), sessions)

/-- `McpCore.processRequest`: protocol-tag check, method lookup, session
enforcement for non-exempt methods (touching the session on success), then
handler invocation with result/error wrapping.  Every branch echoes the
request's `id`. -/
def processRequest (handlers : HandlerMap) (env : DispatchEnv)
    (sessions : SessionMap) (request : JsonRpcRequest) :
    JsonRpcResponse × SessionMap :=
  if request.jsonrpc ≠ "2.0" then
    (createErrorResponse request.id INVALID_REQUEST_CODE "Invalid Request: Not JSON-RPC 2.0",
      sessions)
  else
    match handlers request.method with
    | none =>
      (createErrorResponse request.id METHOD_NOT_FOUND_CODE
        ("Method not found: " ++ request.method), sessions)
    | some handler =>
      if request.method ≠ "mcp.discover" ∧ request.method ≠ "mcp.session.start" ∧
          request.method ≠ "initialize" then
        match requestSessionId request.params with
        | none =>
          (createErrorResponse request.id MISSING_SESSION_CODE "Session ID is required",
            sessions)
        | some sessionId =>
          if validateSession sessions sessionId env.now = false then
            (createErrorResponse request.id SERVER_ERROR_CODE "Invalid or expired session",
              sessions)
          else
            wrapHandlerOutcome request.id (updateSessionActivity sessions sessionId env.now)
              (handler env (request.params.getD {})
                (updateSessionActivity sessions sessionId env.now))
      else
        wrapHandlerOutcome request.id sessions (handler env (request.params.getD {}) sessions)

/-- The `mcp.discover` handler registered by `McpCore.initialize`: returns
the static capabilities descriptor. -/
def handleDiscover (capabilities : JsonValue) : Handler :=
  fun _ _ sessions => .ok (capabilities, sessions)

/-- `McpCore.handleSessionStart`: generate a fresh id, store a new session
with `createdAt = lastAccessedAt = now` and the params as metadata, return
`{session_id}`. -/
def handleSessionStart : Handler := fun env params sessions =>
  let session : McpSession :=
    { id := env.freshId, createdAt := env.now, lastAccessedAt := env.now,
      metadata := some params }
  .ok (.obj [("session_id", .str env.freshId)], sessionsSet sessions session)

/-- `McpCore.handleSessionEnd`: delete the named session when present;
returns `undefined` (modelled as `JsonValue.null`) in every case. -/
def handleSessionEnd : Handler := fun _ params sessions =>
  match params.session_id with
  | some sid =>
    if sessionsHas sessions sid then .ok (.null, sessionsDelete sessions sid)
    else .ok (.null, sessions)
  | none => .ok (.null, sessions)

/-- `McpCore.handleClientInitialize`: always create a brand-new session,
record the client info as metadata, return the session id with the
capabilities and the echoed protocol version. -/
def handleClientInitialize (capabilities : JsonValue) : Handler := fun env params sessions =>
  let session : McpSession :=
    { id := env.freshId, createdAt := env.now, lastAccessedAt := env.now,
      metadata := some params }
  let protocolVersion : JsonValue :=
    match params.protocolVersion with
    | some v => .str v
    | none => .null
  .ok (.obj [("session_id", .str env.freshId), ("server_info", capabilities),
    ("protocol_version", protocolVersion)], sessionsSet sessions session)

/-- The `error` member of an `McpToolResult` (string code plus message). -/
structure ToolError where
  code : String
  message : String
deriving DecidableEq, Repr

/-- `McpToolResult` from `src/mcp/types.ts`: mutually optional `result` and
`error`; tool failures are reported here, never thrown to the dispatcher. -/
structure McpToolResult where
  result : Option JsonValue := none
  error : Option ToolError := none

/-- The first entry of a required-parameter list whose value is absent
(`undefined`), in declaration order. -/
def firstMissingParam : List (String × Bool) → Option String
  | [] => none
  | (name, present) :: rest => if present then firstMissingParam rest else some name

/-- `McpTools.validateRequiredParams`: throw
`Missing required parameter: <name>` on the first absent required key. -/
def validateRequiredParams (required : List (String × Bool)) : Except String Unit :=
  match firstMissingParam required with
  | some name => .error ("Missing required parameter: " ++ name)
  | none => .ok ()

/-- `UpstoxOrderParams` as assembled by `McpTools.placeOrder` before the
broker call (`product` defaults to `D`, `validity` to `DAY`). -/
structure UpstoxOrderParams where
  instrument_token : String
  transaction_type : String
  quantity : Option Int
  order_type : String
  price : Option Int
  trigger_price : Option Int
  product : String
  validity : String
  disclosed_quantity : Option Int
  is_amo : Option Bool

/-- The `try` body of `McpTools.placeOrder`: presence validation, symbol
prefixing, enum and per-order-type checks, then the broker call. -/
def placeOrderInner (broker : Broker) (p : RpcParams) : Except String McpToolResult := do
  let _ ← validateRequiredParams
    [("instrument_token", p.instrument_token.isSome),
     ("transaction_type", p.transaction_type.isSome),
     ("quantity", p.quantity.isSome),
     ("order_type", p.order_type.isSome)]
  let instrument := p.instrument_token.getD ""
  let instrument := if instrument.contains '|' then instrument else "NSE_EQ|" ++ instrument
  let tt := p.transaction_type.getD ""
  if tt ≠ "BUY" ∧ tt ≠ "SELL" then
    throw ("Invalid transaction type: " ++ tt ++ ". Must be BUY or SELL.")
  let ot := p.order_type.getD ""
  if ot ≠ "MARKET" ∧ ot ≠ "LIMIT" ∧ ot ≠ "SL" ∧ ot ≠ "SL-M" then
    throw ("Invalid order type: " ++ ot ++ ". Must be MARKET, LIMIT, SL, or SL-M.")
  if (ot = "LIMIT" ∨ ot = "SL") ∧ p.price.isNone then
    throw "Price is required for LIMIT and SL orders"
  if (ot = "SL" ∨ ot = "SL-M") ∧ p.trigger_price.isNone then
    throw "Trigger price is required for SL and SL-M orders"
  let result ← broker.placeOrder { p with instrument_token := some instrument }
  pure { result := some (.obj [("status", .str "success"), ("order", result)]) }

/-- `McpTools.placeOrder`: any failure inside is caught locally and becomes
a `PLACE_ORDER_ERROR` tool error. -/
def placeOrder (broker : Broker) (p : RpcParams) : McpToolResult :=
  match placeOrderInner broker p with
  | .ok r => r
  | .error msg => { error := some { code := "PLACE_ORDER_ERROR", message := msg } }

/-- The `try` body of `McpTools.cancelOrder`. -/
def cancelOrderInner (broker : Broker) (p : RpcParams) : Except String McpToolResult := do
  let _ ← validateRequiredParams [("order_id", p.order_id.isSome)]
  let oid := p.order_id.getD ""
  let _ ← broker.cancelOrder oid
  pure { result := some (.obj [("status", .str "success"), ("order_id", .str oid),
    ("message", .str "Order cancelled successfully")]) }

/-- `McpTools.cancelOrder`: any failure inside is caught locally and becomes
a `CANCEL_ORDER_ERROR` tool error. -/
def cancelOrder (broker : Broker) (p : RpcParams) : McpToolResult :=
  match cancelOrderInner broker p with
  | .ok r => r
  | .error msg => { error := some { code := "CANCEL_ORDER_ERROR", message := msg } }

/-- The `try` body of `McpTools.getOrder`. -/
def getOrderInner (broker : Broker) (p : RpcParams) : Except String McpToolResult := do
  let _ ← validateRequiredParams [("order_id", p.order_id.isSome)]
  let oid := p.order_id.getD ""
  let result ← broker.getOrder oid
  pure { result := some (.obj [("status", .str "success"), ("order", result)]) }

/-- `McpTools.getOrder`: any failure inside is caught locally and becomes a
`GET_ORDER_ERROR` tool error. -/
def getOrder (broker : Broker) (p : RpcParams) : McpToolResult :=
  match getOrderInner broker p with
  | .ok r => r
  | .error msg => { error := some { code := "GET_ORDER_ERROR", message := msg } }

/-- The `switch` of `McpTools.executeTool` (its `try` body); the `default`
branch throws, every recognised branch returns the tool's own result.  A
missing `tool_id` reaches `default` and is interpolated as `undefined`. -/
def executeToolInner (broker : Broker) (p : RpcParams) : Except String McpToolResult :=
  match p.tool_id with
  | some tid =>
    if tid = "place-order" then .ok (placeOrder broker p)
    else if tid = "cancel-order" then .ok (cancelOrder broker p)
    else if tid = "get-order" then .ok (getOrder broker p)
    else .error ("Tool not found: " ++ tid)
  | none => .error "Tool not found: undefined"

/-- `McpTools.executeTool`: the catch wraps the unknown-tool throw as a
`TOOL_EXECUTION_ERROR` tool error, so the function always returns an
`McpToolResult` and never rejects. -/
def executeTool (broker : Broker) (p : RpcParams) : McpToolResult :=
  match executeToolInner broker p with
  | .ok r => r
  | .error msg => { error := some { code := "TOOL_EXECUTION_ERROR", message := msg } }

/-- Serialization of an `McpToolResult` into the handler result value. -/
def toolResultToValue (r : McpToolResult) : JsonValue :=
  .obj
    ((match r.result with
      | some v => [("result", v)]
      | none => []) ++
     (match r.error with
      | some e => [("error", .obj [("code", .str e.code), ("message", .str e.message)])]
      | none => []))

/-- The handler registered for `mcp.tools.execute`: it resolves with the
tool result in every case. -/
def executeToolHandler : Handler := fun env params sessions =>
  .ok (toolResultToValue (executeTool env.broker params), sessions)

/-- An `McpResourceContent` value (`{content, content_type}`), with the
stringified payload supplied by the broker outcome. -/
def resourceContent (payload : String) : JsonValue :=
  .obj [("content", .str payload), ("content_type", .str "application/json")]

/-- `McpResources.getMarketData`: requires a non-empty `instruments` array,
then forwards to the broker. -/
def getMarketData (broker : Broker) (p : RpcParams) : Except String JsonValue := do
  match p.instruments with
  | none => throw "Valid instruments array is required"
  | some insts =>
    if insts.length = 0 then throw "Valid instruments array is required"
    let d ← broker.getMarketData insts
    pure (resourceContent d)

/-- `McpResources.getInstruments`: requires an `exchange` string, then
forwards to the broker. -/
def getInstrumentsResource (broker : Broker) (p : RpcParams) : Except String JsonValue := do
  match p.exchange with
  | none => throw "Valid exchange is required"
  | some ex =>
    let d ← broker.getInstruments ex
    pure (resourceContent d)

/-- The `switch` of `McpResources.getResource`: unknown resource ids throw
`Resource not found: <id>`, and the throw is NOT caught locally — it
propagates to the dispatcher's catch-all. -/
def getResource (broker : Broker) (p : RpcParams) : Except String JsonValue :=
  match p.resource_id with
  | some "market-data" => getMarketData broker p
  | some "positions" => (broker.getPositions).map resourceContent
  | some "holdings" => (broker.getHoldings).map resourceContent
  | some "orders" => (broker.getOrders).map resourceContent
  | some "profile" => (broker.getProfile).map resourceContent
  | some "instruments" => getInstrumentsResource broker p
  | some other => .error ("Resource not found: " ++ other)
  | none => .error "Resource not found: undefined"

/-- The handler registered for `mcp.resources.get`. -/
def getResourceHandler : Handler := fun env params sessions =>
  (getResource env.broker params).map (fun v => (v, sessions))

/-- The registry assembled by `McpServer.initializeMcp` via
`McpCore.initialize`, `McpResources.initialize` and `McpTools.initialize`,
restricted to the methods the verified claims exercise (the static catalog
methods `mcp.resources.list` and `mcp.tools.list` are omitted). -/
def coreRegistry (capabilities : JsonValue) : HandlerMap := fun method =>
  if method = "mcp.discover" then some (handleDiscover capabilities)
  else if method = "mcp.session.start" then some handleSessionStart
  else if method = "mcp.session.end" then some handleSessionEnd
  else if method = "initialize" then some (handleClientInitialize capabilities)
  else if method = "mcp.resources.get" then some getResourceHandler
  else if method = "mcp.tools.execute" then some executeToolHandler
  else none

/-- One line of the stdio transport (`McpServer.setupStdioTransport`): the
`JSON.parse` outcome is either a request, which is dispatched, or a parse
failure, which is answered with a `-32700` envelope carrying the sentinel
id `0`. -/
def handleStdioLine (handlers : HandlerMap) (env : DispatchEnv)
    (sessions : SessionMap) (line : Except String JsonRpcRequest) :
    JsonRpcResponse × SessionMap :=
  match line with
  | .ok request => processRequest handlers env sessions request
  | .error msg =>
    ({ jsonrpc := "2.0", id := .num 0, result := none,
       error := some (RpcError.mk PARSE_ERROR_CODE ("Parse error: " ++ msg) none) },
      sessions)

/-- The stdio line loop: every line — parseable or not — produces exactly
one response and processing continues with the next line. -/
def processStdioLines (handlers : HandlerMap) (env : DispatchEnv) :
    SessionMap → List (Except String JsonRpcRequest) → List JsonRpcResponse × SessionMap
  | sessions, [] => ([], sessions)
  | sessions, line :: rest =>
    let step := handleStdioLine handlers env sessions line
    let next := processStdioLines handlers env step.2 rest
    (step.1 :: next.1, next.2)

/-- `EnvironmentType` from `src/config/config.ts`. -/
inductive EnvironmentType where
  | live
  | sandbox
deriving DecidableEq, Repr

/-- `AuthMethod` from `src/config/config.ts`. -/
inductive AuthMethod where
  | apiKeySecret
  | accessTokenMethod
deriving DecidableEq, Repr

/-- The slice of the configuration the auth manager reads:
`config.upstox.environment`, `config.upstox.authMethod`, and
`getCredentials(config).accessToken` (an empty configured token is falsy in
the source and is modelled as `none`). -/
structure AuthConfig where
  environment : EnvironmentType
  authMethod : AuthMethod
  configAccessToken : Option String
deriving DecidableEq, Repr

/-- `UpstoxAuthState` from `src/upstox/types.ts`; expiry is local-epoch
milliseconds. -/
structure UpstoxAuthState where
  accessToken : Option String
  tokenExpiry : Option Nat
  isAuthorized : Bool
deriving DecidableEq, Repr

/-- One calendar day in milliseconds (`setDate(getDate() + 1)` on a uniform
local clock). -/
def dayMs : Nat := 24 * 60 * 60 * 1000

/-- `setHours(3, 30, 0, 0)`: truncate to the local day start and add the
03:30 cutover offset. -/
def setCutoverTime (t : Nat) : Nat := t / dayMs * dayMs + (3 * 60 + 30) * 60 * 1000

/-- The expiry computed by `UpstoxAuthManager.initializeFromConfig`: next
day at the 03:30 cutover, one more day if that is still in the past, plus
30 days for the sandbox environment. -/
def computeInitExpiry (environment : EnvironmentType) (now : Nat) : Nat :=
  let e := setCutoverTime (now + dayMs)
  let e := if e < now then e + dayMs else e
  if environment = .sandbox then e + 30 * dayMs else e

/-- The expiry computed by `UpstoxAuthManager.authenticateWithCode`: next
day at the 03:30 cutover, one more day if still in the past — with NO
sandbox adjustment. -/
def computeExchangeExpiry (now : Nat) : Nat :=
  let e := setCutoverTime (now + dayMs)
  if e < now then e + dayMs else e

/-- The expiry computed by the config-token fallback inside
`UpstoxAuthManager.getAccessToken`: 30 days (sandbox) or 1 day (live) are
added BEFORE the cutover truncation, and there is no still-in-the-past
correction. -/
def computeFallbackExpiry (environment : EnvironmentType) (now : Nat) : Nat :=
  setCutoverTime (now + (if environment = .sandbox then 30 else 1) * dayMs)

/-- The expiry computed by `UpstoxAuthManager.setToken`: now plus the
explicit day count, with the cutover truncation applied only for the 1-day
default. -/
def computeSetTokenExpiry (expiryDays : Nat) (now : Nat) : Nat :=
  let e := now + expiryDays * dayMs
  if expiryDays = 1 then setCutoverTime e else e

/-- The initial `UpstoxAuthManager.state`. -/
def emptyAuthState : UpstoxAuthState :=
  { accessToken := none, tokenExpiry := none, isAuthorized := false }

/-- `UpstoxAuthManager.initializeFromConfig`: with the direct-token auth
method and a configured token, seed the state with the computed expiry;
otherwise leave the state empty. -/
def initializeFromConfig (cfg : AuthConfig) (now : Nat) : UpstoxAuthState :=
  match cfg.authMethod, cfg.configAccessToken with
  | .accessTokenMethod, some token =>
    { accessToken := some token,
      tokenExpiry := some (computeInitExpiry cfg.environment now),
      isAuthorized := true }
  | _, _ => emptyAuthState

/-- The config-token fallback of `UpstoxAuthManager.getAccessToken`
(direct-token method, in-memory token absent or stale). -/
def getAccessTokenFallback (cfg : AuthConfig) (now : Nat) :
    Except String (String × UpstoxAuthState) :=
  match cfg.configAccessToken with
  | some token =>
    .ok (token,
      { accessToken := some token,
        tokenExpiry := some (computeFallbackExpiry cfg.environment now),
        isAuthorized := true })
  | none => .error "Access token not found in configuration or state"

/-- The terminal failures of the key+secret branch of
`UpstoxAuthManager.getAccessToken`. -/
def oauthTokenFailure (st : UpstoxAuthState) : Except String (String × UpstoxAuthState) :=
  if st.isAuthorized = false then
    .error "Not authenticated with Upstox. Please authenticate first."
  else
    .error "Upstox token has expired. Re-authorization required."

/-- `UpstoxAuthManager.getAccessToken`: returns the token together with the
state after the call (the fallback path mutates the state). -/
def getAccessToken (cfg : AuthConfig) (st : UpstoxAuthState) (now : Nat) :
    Except String (String × UpstoxAuthState) :=
  if cfg.authMethod = .accessTokenMethod then
    match st.accessToken, st.tokenExpiry with
    | some token, some expiry =>
      if now < expiry then .ok (token, st)
      else getAccessTokenFallback cfg now
    | _, _ => getAccessTokenFallback cfg now
  else
    match st.accessToken, st.tokenExpiry with
    | some token, some expiry =>
      if now < expiry then .ok (token, st)
      else oauthTokenFailure st
    | _, _ => oauthTokenFailure st

/-- The token endpoint's parsed response body (`UpstoxToken`): only the
presence of `access_token` matters to the control flow. -/
structure UpstoxTokenResponse where
  access_token : Option String
deriving DecidableEq, Repr

/-- `UpstoxAuthManager.authenticateWithCode`: the network outcome is a
parameter.  On success the state is overwritten with the exchange expiry;
a rejected call or a body without `access_token` raises
`Authentication failed: …` and returns the state untouched.  The result is
the pair (call outcome, state after the call). -/
def authenticateWithCode (st : UpstoxAuthState)
    (response : Except String UpstoxTokenResponse) (now : Nat) :
    Except String UpstoxAuthState × UpstoxAuthState :=
  match response with
  | .ok tokenData =>
    match tokenData.access_token with
    | some token =>
      let st' : UpstoxAuthState :=
        { accessToken := some token,
          tokenExpiry := some (computeExchangeExpiry now),
          isAuthorized := true }
      (.ok st', st')
    | none =>
      (.error "Authentication failed: Failed to obtain access token from Upstox", st)
  | .error msg => (.error ("Authentication failed: " ++ msg), st)

/-- `UpstoxAuthManager.setToken`: unconditional overwrite with the
explicit-day-count expiry. -/
def setToken (token : String) (expiryDays : Nat) (now : Nat) : UpstoxAuthState :=
  { accessToken := some token,
    tokenExpiry := some (computeSetTokenExpiry expiryDays now),
    isAuthorized := true }

/-- `UpstoxAuthManager.logout`. -/
def logout : UpstoxAuthState := emptyAuthState

/-! ### Concrete fixtures used by counterexamples and witnesses -/

/-- A broker whose every call rejects (upstream unreachable). -/
def offlineBroker : Broker :=
  { placeOrder := fun _ => .error "no network",
    cancelOrder := fun _ => .error "no network",
    getOrder := fun _ => .error "no network",
    getMarketData := fun _ => .error "no network",
    getPositions := .error "no network",
    getHoldings := .error "no network",
    getOrders := .error "no network",
    getProfile := .error "no network",
    getInstruments := fun _ => .error "no network" }

/-- A dispatch context at local time 0. -/
def sampleEnv : DispatchEnv := { now := 0, freshId := "uuid-1", broker := offlineBroker }

/-- The static capabilities descriptor of `McpServer.initializeMcp`. -/
def sampleCapabilities : JsonValue :=
  .obj [("name", .str "upstox-mcp-server"), ("version", .str "1.0.0"),
    ("vendor", .str "Upstox")]

/-- The registry as assembled at startup. -/
def sampleHandlers : HandlerMap := coreRegistry sampleCapabilities

/-- A session created and last touched at time 0. -/
def sessionS1 : McpSession := { id := "s1", createdAt := 0, lastAccessedAt := 0 }

/-- Params naming session `s1`. -/
def paramsS1 : RpcParams := { session_id := some "s1" }

/-- A `mcp.session.end` request for session `s1`. -/
def reqEndS1 : JsonRpcRequest :=
  { jsonrpc := "2.0", id := .num 1, method := "mcp.session.end", params := some paramsS1 }

/-- A `mcp.session.end` request whose params lack `session_id`. -/
def reqEndNoSession : JsonRpcRequest :=
  { jsonrpc := "2.0", id := .num 2, method := "mcp.session.end", params := some {} }

/-- A `mcp.resources.get` request for an unknown resource id (its handler
throws, exercising the dispatcher's catch-all). -/
def reqResourceUnknown : JsonRpcRequest :=
  { jsonrpc := "2.0", id := .num 3, method := "mcp.resources.get",
    params := some { session_id := some "s1", resource_id := some "nope" } }

/-- A `mcp.tools.execute` request for `cancel-order` with no `order_id`. -/
def reqToolCancel : JsonRpcRequest :=
  { jsonrpc := "2.0", id := .num 4, method := "mcp.tools.execute",
    params := some { session_id := some "s1", tool_id := some "cancel-order" } }

/-- A sandbox direct-token configuration. -/
def sandboxTokenCfg : AuthConfig :=
  { environment := .sandbox, authMethod := .accessTokenMethod,
    configAccessToken := some "configured-token" }

/-- An auth state from a previous successful authorization. -/
def priorAuthState : UpstoxAuthState :=
  { accessToken := some "old-token", tokenExpiry := some 99000000, isAuthorized := true }

/-! ### Dispatcher reduction lemmas -/

theorem wrapHandlerOutcome_fst_id (id : RpcId) (sessions : SessionMap)
    (outcome : Except String (JsonValue × SessionMap)) :
    (wrapHandlerOutcome id sessions outcome).1.id = id := by
  cases outcome with
  | ok v => rfl
  | error msg => rfl

theorem processRequest_missing_session
    (handlers : HandlerMap) (env : DispatchEnv) (sessions : SessionMap)
    (request : JsonRpcRequest) (h : Handler)
    (hjson : request.jsonrpc = "2.0")
    (hreg : handlers request.method = some h)
    (h1 : request.method ≠ "mcp.discover")
    (h2 : request.method ≠ "mcp.session.start")
    (h3 : request.method ≠ "initialize")
    (hsid : requestSessionId request.params = none) :
    processRequest handlers env sessions request =
      (createErrorResponse request.id MISSING_SESSION_CODE "Session ID is required",
        sessions) := by
  unfold processRequest
  rw [if_neg (by simp [hjson]), hreg]
  simp only []
  rw [if_pos ⟨h1, h2, h3⟩, hsid]

theorem processRequest_invalid_session
    (handlers : HandlerMap) (env : DispatchEnv) (sessions : SessionMap)
    (request : JsonRpcRequest) (h : Handler) (sid : String)
    (hjson : request.jsonrpc = "2.0")
    (hreg : handlers request.method = some h)
    (h1 : request.method ≠ "mcp.discover")
    (h2 : request.method ≠ "mcp.session.start")
    (h3 : request.method ≠ "initialize")
    (hsid : requestSessionId request.params = some sid)
    (hval : validateSession sessions sid env.now = false) :
    processRequest handlers env sessions request =
      (createErrorResponse request.id SERVER_ERROR_CODE "Invalid or expired session",
        sessions) := by
  unfold processRequest
  rw [if_neg (by simp [hjson]), hreg]
  simp only []
  rw [if_pos ⟨h1, h2, h3⟩, hsid]
  simp only [hval]
  rw [if_pos trivial]

theorem processRequest_dispatch
    (handlers : HandlerMap) (env : DispatchEnv) (sessions : SessionMap)
    (request : JsonRpcRequest) (h : Handler) (sid : String)
    (hjson : request.jsonrpc = "2.0")
    (hreg : handlers request.method = some h)
    (h1 : request.method ≠ "mcp.discover")
    (h2 : request.method ≠ "mcp.session.start")
    (h3 : request.method ≠ "initialize")
    (hsid : requestSessionId request.params = some sid)
    (hval : validateSession sessions sid env.now = true) :
    processRequest handlers env sessions request =
      wrapHandlerOutcome request.id (updateSessionActivity sessions sid env.now)
        (h env (request.params.getD {}) (updateSessionActivity sessions sid env.now)) := by
  unfold processRequest
  rw [if_neg (by simp [hjson]), hreg]
  simp only []
  rw [if_pos ⟨h1, h2, h3⟩, hsid]
  simp only [hval]
  rw [if_neg (by simp)]

/-! ### Claim theorems -/

/-- C1: for every request (in particular every valid envelope carrying the
protocol tag "2.0"), the response produced by `processRequest` echoes the
request's `id` — in the success branch, the invalid-envelope branch, the
method-not-found branch, both session-error branches, and the catch-all
handler-failure branch. -/
theorem processRequest_echoes_request_id (handlers : HandlerMap) (env : DispatchEnv)
    (sessions : SessionMap) (request : JsonRpcRequest) :
    (processRequest handlers env sessions request).1.id = request.id := by
  unfold processRequest
  split
  · rfl
  · split
    · rfl
    · split
      · split
        · rfl
        · split
          · rfl
          · exact wrapHandlerOutcome_fst_id _ _ _
      · exact wrapHandlerOutcome_fst_id _ _ _

/-- C2 (counterexample): for the session-required method `mcp.session.end`,
a request with no `session_id` is answered with code `-32602` while a
request whose `session_id` fails validation is answered with code
`-32000` — the two session errors do NOT share one error code, contrary to
the claim. -/
theorem missing_and_invalid_session_codes_differ :
    (processRequest sampleHandlers sampleEnv [] reqEndNoSession).1.error.map RpcError.code =
      some MISSING_SESSION_CODE ∧
    (processRequest sampleHandlers sampleEnv [] reqEndS1).1.error.map RpcError.code =
      some SERVER_ERROR_CODE ∧
    MISSING_SESSION_CODE ≠ SERVER_ERROR_CODE :=
  ⟨rfl, rfl, by decide⟩

/-- C2 (amended): for every session-required registered method, a request
whose params lack `session_id` yields code `-32602` with message
"Session ID is required", and a request whose `session_id` fails
`validateSession` yields the DIFFERENT code `-32000` with message
"Invalid or expired session"; in both cases the handler is never invoked
(the outcome is a fixed error response independent of the handler, and the
session map is returned unchanged). -/
theorem session_guard_rejects_without_handler
    (handlers : HandlerMap) (env : DispatchEnv) (sessions : SessionMap)
    (request : JsonRpcRequest) (h : Handler)
    (hjson : request.jsonrpc = "2.0")
    (hreg : handlers request.method = some h)
    (h1 : request.method ≠ "mcp.discover")
    (h2 : request.method ≠ "mcp.session.start")
    (h3 : request.method ≠ "initialize") :
    (requestSessionId request.params = none →
      processRequest handlers env sessions request =
        (createErrorResponse request.id MISSING_SESSION_CODE "Session ID is required",
          sessions)) ∧
    (∀ sid, requestSessionId request.params = some sid →
      validateSession sessions sid env.now = false →
      processRequest handlers env sessions request =
        (createErrorResponse request.id SERVER_ERROR_CODE "Invalid or expired session",
          sessions)) := by
  constructor
  · intro hsid
    exact processRequest_missing_session handlers env sessions request h hjson hreg h1 h2 h3 hsid
  · intro sid hsid hval
    exact processRequest_invalid_session handlers env sessions request h sid hjson hreg h1 h2 h3
      hsid hval

/-- Witness for the amended C2 at a concrete request. -/
theorem session_guard_rejects_without_handler_witness :
    processRequest sampleHandlers sampleEnv [sessionS1] reqEndNoSession =
      (createErrorResponse (.num 2) MISSING_SESSION_CODE "Session ID is required",
        [sessionS1]) :=
  (session_guard_rejects_without_handler sampleHandlers sampleEnv [sessionS1] reqEndNoSession
    handleSessionEnd rfl rfl (by decide) (by decide) (by decide)).1 rfl

/-- C3 (counterexample): the code of the invalid-or-expired-session error
and the code of the catch-all internal error are BOTH `-32000` — they are
not distinct, contrary to the claim. -/
theorem invalid_session_code_equals_internal_error_code :
    (processRequest sampleHandlers sampleEnv [] reqEndS1).1.error.map RpcError.code =
      some (-32000) ∧
    (processRequest sampleHandlers sampleEnv [sessionS1] reqResourceUnknown).1.error.map
        RpcError.code =
      some (-32000) :=
  ⟨rfl, rfl⟩

/-- C3 (amended): the emitted codes `-32600` (invalid envelope), `-32601`
(method not found), `-32602` (missing session id), `-32000` (server error)
and `-32700` (parse error) are pairwise-distinct negative constants, and
the missing-session code differs from the internal-error code; but the
invalid-or-expired-session error reuses `-32000`, the same code the
catch-all internal error uses. -/
theorem core_error_codes :
    (INVALID_REQUEST_CODE ≠ METHOD_NOT_FOUND_CODE ∧
     INVALID_REQUEST_CODE ≠ MISSING_SESSION_CODE ∧
     INVALID_REQUEST_CODE ≠ SERVER_ERROR_CODE ∧
     INVALID_REQUEST_CODE ≠ PARSE_ERROR_CODE ∧
     METHOD_NOT_FOUND_CODE ≠ MISSING_SESSION_CODE ∧
     METHOD_NOT_FOUND_CODE ≠ SERVER_ERROR_CODE ∧
     METHOD_NOT_FOUND_CODE ≠ PARSE_ERROR_CODE ∧
     MISSING_SESSION_CODE ≠ SERVER_ERROR_CODE ∧
     MISSING_SESSION_CODE ≠ PARSE_ERROR_CODE ∧
     SERVER_ERROR_CODE ≠ PARSE_ERROR_CODE) ∧
    (INVALID_REQUEST_CODE < 0 ∧ METHOD_NOT_FOUND_CODE < 0 ∧ MISSING_SESSION_CODE < 0 ∧
     SERVER_ERROR_CODE < 0 ∧ PARSE_ERROR_CODE < 0) ∧
    (processRequest sampleHandlers sampleEnv [] reqEndS1).1.error.map RpcError.code =
      (processRequest sampleHandlers sampleEnv [sessionS1] reqResourceUnknown).1.error.map
        RpcError.code :=
  ⟨by decide, by decide, rfl⟩

/-- C4: the expiry threshold is exactly one hour of idle time, in
milliseconds; `validateSession` is false on an absent session, and on a
present one is true exactly when the idle time is strictly below the
threshold (so false at exactly one hour, true at one hour minus a
millisecond); and `cleanupSessions` keeps exactly the sessions whose idle
time is strictly below the threshold. -/
theorem session_expiry_boundary_and_sweep (m : SessionMap) (sid : String) (now : Int) :
    SESSION_EXPIRY_TIME = 3600000 ∧
    (sessionsGet m sid = none → validateSession m sid now = false) ∧
    (∀ s, sessionsGet m sid = some s →
      (validateSession m sid now = true ↔ now - s.lastAccessedAt < SESSION_EXPIRY_TIME)) ∧
    (∀ s, s ∈ cleanupSessions m now ↔
      s ∈ m ∧ now - s.lastAccessedAt < SESSION_EXPIRY_TIME) := by
  refine ⟨by decide, ?_, ?_, ?_⟩
  · intro habs
    simp [validateSession, habs]
  · intro s hs
    simp [validateSession, hs]
  · intro s
    simp only [cleanupSessions, List.mem_filter, Bool.not_eq_eq_eq_not, Bool.not_true,
      decide_eq_false_iff_not, not_le]

/-- Witness for C4 at the boundary: a session idle exactly one hour is
invalid, one idle a millisecond less is valid, and a session touched one
minute before a sweep survives it. -/
theorem session_expiry_boundary_and_sweep_witness :
    validateSession [sessionS1] "s1" 3600000 = false ∧
    validateSession [sessionS1] "s1" 3599999 = true ∧
    sessionS1 ∈ cleanupSessions [sessionS1] 60000 := by
  refine ⟨?_, ?_, ?_⟩
  · cases hb : validateSession [sessionS1] "s1" 3600000 with
    | false => rfl
    | true =>
      exact absurd (((session_expiry_boundary_and_sweep [sessionS1] "s1" 3600000).2.2.1
        sessionS1 rfl).mp hb) (by decide)
  · exact ((session_expiry_boundary_and_sweep [sessionS1] "s1" 3599999).2.2.1
      sessionS1 rfl).mpr (by decide)
  · exact ((session_expiry_boundary_and_sweep [sessionS1] "s1" 60000).2.2.2
      sessionS1).mpr ⟨by simp, by decide⟩

/-- The 03:30 instant of the day after `now` is always strictly in the
future, so the still-in-the-past correction of the init and exchange
expiry computations never fires. -/
theorem now_lt_setCutoverTime_next_day (now : Nat) :
    now < setCutoverTime (now + dayMs) := by
  unfold setCutoverTime dayMs
  omega

/-- C5 (counterexample): at noon of local day 0 in the sandbox environment,
the three token sources compute three DIFFERENT expiry instants — the
exchange omits the sandbox 30-day extension, and the fallback adds 30 days
before the cutover truncation instead of after it. -/
theorem token_expiry_sources_disagree_in_sandbox :
    computeInitExpiry .sandbox 43200000 ≠ computeExchangeExpiry 43200000 ∧
    computeInitExpiry .sandbox 43200000 ≠ computeFallbackExpiry .sandbox 43200000 ∧
    computeExchangeExpiry 43200000 ≠ computeFallbackExpiry .sandbox 43200000 := by
  refine ⟨?_, ?_, ?_⟩ <;> decide

/-- The still-in-the-past correction, written out: it never fires. -/
theorem setCutover_if_dead (now : Nat) :
    (if setCutoverTime (now + dayMs) < now then setCutoverTime (now + dayMs) + dayMs
      else setCutoverTime (now + dayMs)) = setCutoverTime (now + dayMs) :=
  if_neg (Nat.not_lt.mpr (Nat.le_of_lt (now_lt_setCutoverTime_next_day now)))

theorem computeExchangeExpiry_eq (now : Nat) :
    computeExchangeExpiry now = setCutoverTime (now + dayMs) := by
  simp only [computeExchangeExpiry]
  exact setCutover_if_dead now

theorem computeInitExpiry_live (now : Nat) :
    computeInitExpiry .live now = setCutoverTime (now + dayMs) := by
  have henv : ¬(EnvironmentType.live = EnvironmentType.sandbox) := by decide
  simp only [computeInitExpiry]
  rw [if_neg henv, setCutover_if_dead]

theorem computeInitExpiry_sandbox (now : Nat) :
    computeInitExpiry .sandbox now = setCutoverTime (now + dayMs) + 30 * dayMs := by
  simp only [computeInitExpiry]
  rw [if_pos trivial, setCutover_if_dead]

theorem computeFallbackExpiry_live (now : Nat) :
    computeFallbackExpiry .live now = setCutoverTime (now + dayMs) := by
  have henv : ¬(EnvironmentType.live = EnvironmentType.sandbox) := by decide
  simp only [computeFallbackExpiry]
  rw [if_neg henv, one_mul]

/-- C5 (amended): in the LIVE environment the three token sources (startup
initialization, OAuth code exchange, config fallback inside the token
read) and `setToken` with the default 1-day count all compute the same
expiry, next day at the 03:30 cutover; in the SANDBOX environment they
disagree: the initialization adds 30 days on top of the exchange value,
while the fallback lands one day earlier than the initialization because
it adds its 30 days before the cutover truncation. -/
theorem token_expiry_algorithm_agreement (now : Nat) :
    computeInitExpiry .live now = computeExchangeExpiry now ∧
    computeFallbackExpiry .live now = computeExchangeExpiry now ∧
    computeSetTokenExpiry 1 now = computeExchangeExpiry now ∧
    computeInitExpiry .sandbox now = computeExchangeExpiry now + 30 * dayMs ∧
    computeInitExpiry .sandbox now = computeFallbackExpiry .sandbox now + dayMs := by
  refine ⟨?_, ?_, ?_, ?_, ?_⟩
  · rw [computeInitExpiry_live, computeExchangeExpiry_eq]
  · rw [computeFallbackExpiry_live, computeExchangeExpiry_eq]
  · simp only [computeSetTokenExpiry]
    rw [if_pos trivial, computeExchangeExpiry_eq, one_mul]
  · rw [computeInitExpiry_sandbox, computeExchangeExpiry_eq]
  · rw [computeInitExpiry_sandbox]
    simp only [computeFallbackExpiry]
    rw [if_pos trivial]
    unfold setCutoverTime dayMs
    omega

/-- C6 (counterexample): sandbox direct-token configuration, state as seeded
from the config at noon of day 0 (expiry 2691000000 = day 31 at 03:30);
calling the token read at 11:30 on day 31 — just after that expiry —
succeeds through the config fallback but stores expiry 5283000000, which is
LESS than 30 days after the current time (5311800000). -/
theorem sandbox_fallback_expiry_below_thirty_days :
    getAccessToken sandboxTokenCfg (initializeFromConfig sandboxTokenCfg 43200000)
        2719800000 =
      .ok ("configured-token",
        { accessToken := some "configured-token", tokenExpiry := some 5283000000,
          isAuthorized := true }) ∧
    5283000000 < 2719800000 + 30 * dayMs :=
  ⟨rfl, by decide⟩

/-- C6 (amended): under a sandbox direct-token configuration, a token read
served from the in-memory state seeded from the configuration at the same
current time succeeds with a stored expiry strictly more than 30 days out,
at every time of day; the config-fallback path, by contrast, can store an
expiry below the 30-day mark (see the counterexample). -/
theorem sandbox_direct_token_expiry_thirty_days (cfg : AuthConfig) (t : String) (now : Nat)
    (henv : cfg.environment = .sandbox)
    (hmeth : cfg.authMethod = .accessTokenMethod)
    (htok : cfg.configAccessToken = some t) :
    ∃ e, (initializeFromConfig cfg now).tokenExpiry = some e ∧
      now + 30 * dayMs < e ∧
      getAccessToken cfg (initializeFromConfig cfg now) now =
        .ok (t, initializeFromConfig cfg now) := by
  have hdead := now_lt_setCutoverTime_next_day now
  have hstate : initializeFromConfig cfg now =
      { accessToken := some t,
        tokenExpiry := some (computeInitExpiry cfg.environment now),
        isAuthorized := true } := by
    unfold initializeFromConfig
    rw [hmeth, htok]
  have hexp : computeInitExpiry cfg.environment now =
      setCutoverTime (now + dayMs) + 30 * dayMs := by
    rw [henv, computeInitExpiry_sandbox]
  have hlt : now < computeInitExpiry cfg.environment now := by
    rw [hexp]
    omega
  refine ⟨computeInitExpiry cfg.environment now, ?_, ?_, ?_⟩
  · rw [hstate]
  · rw [hexp]
    omega
  · rw [hstate]
    unfold getAccessToken
    rw [if_pos hmeth]
    dsimp only
    rw [if_pos hlt]

/-- Witness for the amended C6 at a concrete configuration and time. -/
theorem sandbox_direct_token_expiry_thirty_days_witness :
    ∃ e, (initializeFromConfig sandboxTokenCfg 43200000).tokenExpiry = some e ∧
      43200000 + 30 * dayMs < e ∧
      getAccessToken sandboxTokenCfg (initializeFromConfig sandboxTokenCfg 43200000)
          43200000 =
        .ok ("configured-token", initializeFromConfig sandboxTokenCfg 43200000) :=
  sandbox_direct_token_expiry_thirty_days sandboxTokenCfg "configured-token" 43200000
    rfl rfl rfl

/-- C7: the code exchange raises an `Authentication failed: …` error and
leaves the auth state exactly as it was, both when the network call rejects
and when the response carries no access token; the state is overwritten
only in the success case, with the exchange expiry. -/
theorem exchange_failure_preserves_auth_state (st : UpstoxAuthState)
    (response : Except String UpstoxTokenResponse) (now : Nat) :
    (∀ msg, response = .error msg →
      authenticateWithCode st response now =
        (.error ("Authentication failed: " ++ msg), st)) ∧
    (∀ td, response = .ok td → td.access_token = none →
      authenticateWithCode st response now =
        (.error "Authentication failed: Failed to obtain access token from Upstox", st)) ∧
    (∀ td token, response = .ok td → td.access_token = some token →
      authenticateWithCode st response now =
        (.ok (UpstoxAuthState.mk (some token) (some (computeExchangeExpiry now)) true),
          UpstoxAuthState.mk (some token) (some (computeExchangeExpiry now)) true)) := by
  refine ⟨?_, ?_, ?_⟩
  · intro msg hresp
    subst hresp
    rfl
  · intro td hresp htok
    subst hresp
    simp only [authenticateWithCode, htok]
  · intro td token hresp htok
    subst hresp
    simp only [authenticateWithCode, htok]

/-- Witness for C7: a rejected exchange against a previously-authorized
state reports the upstream message and returns the state untouched. -/
theorem exchange_failure_preserves_auth_state_witness :
    authenticateWithCode priorAuthState (.error "Invalid authorization code") 43200000 =
      (.error "Authentication failed: Invalid authorization code", priorAuthState) :=
  (exchange_failure_preserves_auth_state priorAuthState
    (.error "Invalid authorization code") 43200000).1 "Invalid authorization code" rfl

/-- Deleting a key removes every entry with that key. -/
theorem sessionsHas_delete (m : SessionMap) (sid : String) :
    sessionsHas (sessionsDelete m sid) sid = false := by
  rw [Bool.eq_false_iff]
  intro hany
  simp only [sessionsHas, sessionsDelete, List.any_eq_true, List.mem_filter] at hany
  obtain ⟨s, ⟨_, hne⟩, heq⟩ := hany
  rw [bne_iff_ne] at hne
  exact hne (by simpa using heq)

/-- C8 (counterexample): processing `mcp.session.end` for a live session
succeeds and removes it; processing the SAME request again on the resulting
session map yields the invalid-or-expired-session error response — the
second call through the dispatcher is NOT error-free, contrary to the
claim. -/
theorem second_session_end_returns_error :
    (processRequest sampleHandlers sampleEnv [sessionS1] reqEndS1).1.error = none ∧
    (processRequest sampleHandlers sampleEnv
        (processRequest sampleHandlers sampleEnv [sessionS1] reqEndS1).2 reqEndS1).1.error =
      some (RpcError.mk SERVER_ERROR_CODE "Invalid or expired session" none) :=
  ⟨rfl, rfl⟩

/-- C8 (amended): the session-end HANDLER is idempotent — invoked again
after its session has been removed it completes without an error — but
through the dispatcher a second `mcp.session.end` call for the same id is
rejected with the invalid-or-expired-session error before the handler
runs, because `mcp.session.end` itself is a session-required method. -/
theorem session_end_handler_idempotent_dispatcher_guarded
    (env : DispatchEnv) (sessions : SessionMap) (sid : String) (params : RpcParams)
    (hsid : params.session_id = some sid) :
    (handleSessionEnd env params (sessionsDelete sessions sid) =
      .ok (.null, sessionsDelete sessions sid)) ∧
    (∀ request : JsonRpcRequest, ∀ handlers : HandlerMap,
      request.jsonrpc = "2.0" → request.method = "mcp.session.end" →
      request.params = some params → sid ≠ "" →
      handlers "mcp.session.end" = some handleSessionEnd →
      sessionsGet sessions sid = none →
      processRequest handlers env sessions request =
        (createErrorResponse request.id SERVER_ERROR_CODE "Invalid or expired session",
          sessions)) := by
  constructor
  · unfold handleSessionEnd
    rw [hsid]
    simp only [sessionsHas_delete, Bool.false_eq_true, if_false]
  · intro request handlers hjson hmeth hparams hne hreg habs
    refine processRequest_invalid_session handlers env sessions request handleSessionEnd sid
      hjson (by rw [hmeth]; exact hreg) (by rw [hmeth]; decide) (by rw [hmeth]; decide)
      (by rw [hmeth]; decide) ?_ ?_
    · rw [hparams]
      simp only [requestSessionId, hsid]
      rw [if_neg hne]
    · unfold validateSession
      rw [habs]

/-- Witness for the amended C8: the handler no-op after deletion, and the
dispatcher-level rejection of the second call, at a concrete session. -/
theorem session_end_handler_idempotent_dispatcher_guarded_witness :
    (handleSessionEnd sampleEnv paramsS1 (sessionsDelete [sessionS1] "s1") =
      .ok (.null, sessionsDelete [sessionS1] "s1")) ∧
    processRequest sampleHandlers sampleEnv [] reqEndS1 =
      (createErrorResponse (.num 1) SERVER_ERROR_CODE "Invalid or expired session", []) :=
  ⟨(session_end_handler_idempotent_dispatcher_guarded sampleEnv [sessionS1] "s1" paramsS1
      rfl).1,
    (session_end_handler_idempotent_dispatcher_guarded sampleEnv [] "s1" paramsS1 rfl).2
      reqEndS1 sampleHandlers rfl rfl rfl (by decide) rfl rfl⟩

/-- C9 (counterexample): the stdio transport answers an unparseable line
with an envelope whose id is the NUMBER 0, which is not the JSON `null`
the claim requires. -/
theorem stdio_parse_error_id_is_zero_not_null :
    (handleStdioLine sampleHandlers sampleEnv [] (.error "Unexpected token")).1.id =
      RpcId.num 0 ∧
    RpcId.num 0 ≠ RpcId.null :=
  ⟨rfl, by decide⟩

/-- C9 (amended): for every stdin line that fails to parse, the stdio
transport writes back an error envelope whose id is the sentinel `0` (not
`null`) and whose code is the parse-error constant `-32700`, with the
upstream parse message appended; and it keeps processing — a list of lines
always yields exactly one response per line, parse failures included. -/
theorem stdio_parse_error_envelope_and_continuation (handlers : HandlerMap)
    (env : DispatchEnv) (sessions : SessionMap)
    (lines : List (Except String JsonRpcRequest)) (msg : String) :
    handleStdioLine handlers env sessions (.error msg) =
      ({ jsonrpc := "2.0", id := .num 0, result := none,
         error := some (RpcError.mk PARSE_ERROR_CODE ("Parse error: " ++ msg) none) },
        sessions) ∧
    (processStdioLines handlers env sessions lines).1.length = lines.length := by
  constructor
  · rfl
  · induction lines generalizing sessions with
    | nil => rfl
    | cons l rest ih =>
      simp only [processStdioLines, List.length_cons]
      rw [ih]

/-- The cancel-order tool with a missing `order_id` reports the missing
parameter inside its own error field. -/
theorem cancelOrder_missing_order_id (broker : Broker) (p : RpcParams)
    (h : p.order_id = none) :
    cancelOrder broker p =
      { result := none,
        error := some (ToolError.mk "CANCEL_ORDER_ERROR"
          "Missing required parameter: order_id") } := by
  unfold cancelOrder cancelOrderInner validateRequiredParams firstMissingParam
  rw [h]
  rfl

/-- A rejected broker call inside cancel-order is reported inside the tool
error field. -/
theorem cancelOrder_broker_failure (broker : Broker) (p : RpcParams) (oid msg : String)
    (h : p.order_id = some oid) (hb : broker.cancelOrder oid = .error msg) :
    cancelOrder broker p =
      { result := none, error := some (ToolError.mk "CANCEL_ORDER_ERROR" msg) } := by
  unfold cancelOrder cancelOrderInner
  rw [h]
  simp only [Option.getD_some, Option.isSome_some]
  rw [hb]
  rfl

/-- C10: the `mcp.tools.execute` handler always resolves: through the
dispatcher (protocol tag valid, session valid) the response is always a
SUCCESS envelope wrapping the tool result, with `error = none` — the
catch-all internal-error branch is unreachable for this method; an unknown
`tool_id` becomes a `TOOL_EXECUTION_ERROR` inside the result, a
cancel-order call without `order_id` becomes a `CANCEL_ORDER_ERROR` naming
the missing parameter, and a broker failure becomes a `CANCEL_ORDER_ERROR`
carrying the upstream message — none of them is thrown. -/
theorem tools_execute_always_success_envelope
    (handlers : HandlerMap) (env : DispatchEnv) (sessions : SessionMap)
    (request : JsonRpcRequest) (sid : String)
    (hreg : handlers "mcp.tools.execute" = some executeToolHandler)
    (hjson : request.jsonrpc = "2.0")
    (hmeth : request.method = "mcp.tools.execute")
    (hsid : requestSessionId request.params = some sid)
    (hval : validateSession sessions sid env.now = true) :
    ((processRequest handlers env sessions request).1 =
      { jsonrpc := "2.0", id := request.id,
        result := some (toolResultToValue (executeTool env.broker (request.params.getD {}))),
        error := none }) ∧
    (∀ broker : Broker, ∀ p : RpcParams, p.tool_id = some "cancel-order" →
      p.order_id = none →
      executeTool broker p =
        { result := none,
          error := some (ToolError.mk "CANCEL_ORDER_ERROR"
            "Missing required parameter: order_id") }) ∧
    (∀ broker : Broker, ∀ p : RpcParams, ∀ other : String, p.tool_id = some other →
      other ≠ "place-order" → other ≠ "cancel-order" → other ≠ "get-order" →
      executeTool broker p =
        { result := none,
          error := some (ToolError.mk "TOOL_EXECUTION_ERROR"
            ("Tool not found: " ++ other)) }) ∧
    (∀ broker : Broker, ∀ p : RpcParams, ∀ oid msg : String,
      p.tool_id = some "cancel-order" → p.order_id = some oid →
      broker.cancelOrder oid = .error msg →
      executeTool broker p =
        { result := none, error := some (ToolError.mk "CANCEL_ORDER_ERROR" msg) }) := by
  refine ⟨?_, ?_, ?_, ?_⟩
  · rw [processRequest_dispatch handlers env sessions request executeToolHandler sid hjson
      (by rw [hmeth]; exact hreg) (by rw [hmeth]; decide) (by rw [hmeth]; decide)
      (by rw [hmeth]; decide) hsid hval]
    rfl
  · intro broker p h1 h2
    unfold executeTool executeToolInner
    rw [h1]
    simp only []
    rw [if_neg (by decide : ¬("cancel-order" = "place-order")),
      if_pos trivial,
      cancelOrder_missing_order_id broker p h2]
  · intro broker p other h1 hne1 hne2 hne3
    unfold executeTool executeToolInner
    rw [h1]
    simp only []
    rw [if_neg hne1, if_neg hne2, if_neg hne3]
  · intro broker p oid msg h1 h2 hb
    unfold executeTool executeToolInner
    rw [h1]
    simp only []
    rw [if_neg (by decide : ¬("cancel-order" = "place-order")),
      if_pos trivial,
      cancelOrder_broker_failure broker p oid msg h2 hb]

/-- Witness for C10: a concrete cancel-order execution with no `order_id`
against an offline broker still yields a success envelope. -/
theorem tools_execute_always_success_envelope_witness :
    (processRequest sampleHandlers sampleEnv [sessionS1] reqToolCancel).1 =
      { jsonrpc := "2.0", id := .num 4,
        result := some (toolResultToValue
          (executeTool sampleEnv.broker (reqToolCancel.params.getD {}))),
        error := none } :=
  (tools_execute_always_success_envelope sampleHandlers sampleEnv [sessionS1] reqToolCancel
    "s1" rfl rfl rfl rfl rfl).1

end UpstoxMcp
